import Mathlib

set_option autoImplicit false

/- Shallow embedding of the tag-resolution core of the vectorworks-tag
   GitHub action.  The repository carries two grammar variants of the same
   code: an "up"-keyed source file (namespace Up below, the file referred to
   as part_001) and the "sp"-keyed index.js (namespace Sp below).  JavaScript
   strings are modelled as lists of characters; the JavaScript numbers that
   arise in this program are integers or NaN, modelled as Option Int with
   none standing for NaN. -/

/-- JavaScript strings, modelled as lists of characters. -/
abbrev Str := List Char

/-- JavaScript numbers as produced by parseInt and the integer arithmetic of
this program: an integer, or NaN (modelled as none). -/
abbrev JNum := Option Int

/-- JavaScript strict equality on numbers: NaN compares unequal to
everything, including itself. -/
def jeq : JNum → JNum → Bool
  | some a, some b => a == b
  | _, _ => false

/-- JavaScript subtraction on numbers; NaN is absorbing. -/
def jsub : JNum → JNum → JNum
  | some a, some b => some (a - b)
  | _, _ => none

/-- JavaScript addition on numbers; NaN is absorbing. -/
def jadd : JNum → JNum → JNum
  | some a, some b => some (a + b)
  | _, _ => none

/-- JavaScript < on numbers: any comparison involving NaN is false. -/
def jlt : JNum → JNum → Bool
  | some a, some b => decide (a < b)
  | _, _ => false

/-- JavaScript > on numbers: any comparison involving NaN is false. -/
def jgt : JNum → JNum → Bool
  | some a, some b => decide (b < a)
  | _, _ => false

/-- The integer carried by a number, with NaN mapped to 0; used only to word
properties of comparator results. -/
def jval (x : JNum) : Int := x.getD 0

/-- JavaScript String.prototype.split with a one-character separator:
splitting the empty string gives one empty segment, and separators at the
ends produce empty segments. -/
def jsSplit (sep : Char) : Str → List Str
  | [] => [[]]
  | c :: cs =>
    if c = sep then
      [] :: jsSplit sep cs
    else
      match jsSplit sep cs with
      | [] => [[c]]
      | s :: ss => (c :: s) :: ss

/-- Whitespace skipped by JavaScript parseInt (the ASCII part; the inputs of
this program contain no other whitespace). -/
def isJsSpace (c : Char) : Bool :=
  c = ' ' || c = '\t' || c = '\n' || c = '\r' || c = '\x0b' || c = '\x0c'

/-- Value of a decimal digit. -/
def decDigit (c : Char) : Option Nat :=
  if '0' ≤ c ∧ c ≤ '9' then some (c.toNat - ('0').toNat) else none

/-- Value of a hexadecimal digit. -/
def hexDigit (c : Char) : Option Nat :=
  if '0' ≤ c ∧ c ≤ '9' then some (c.toNat - ('0').toNat)
  else if 'a' ≤ c ∧ c ≤ 'f' then some (c.toNat - ('a').toNat + 10)
  else if 'A' ≤ c ∧ c ≤ 'F' then some (c.toNat - ('A').toNat + 10)
  else none

/-- Read the maximal digit run at the front of the string; none when there is
no digit at all (parseInt then yields NaN). -/
def readDigits (f : Char → Option Nat) (base : Nat) (s : Str) : Option Nat :=
  let ds := s.takeWhile (fun c => (f c).isSome)
  if ds.isEmpty then none
  else some (ds.foldl (fun acc c => acc * base + (f c).getD 0) 0)

/-- Magnitude part of parseInt with no radix argument: a 0x/0X run is read as
hexadecimal, anything else as decimal. -/
def jsParseNat (s : Str) : Option Nat :=
  match s with
  | '0' :: 'x' :: r => readDigits hexDigit 16 r
  | '0' :: 'X' :: r => readDigits hexDigit 16 r
  | _ => readDigits decDigit 10 s

/-- JavaScript parseInt(s) with no radix argument: skip leading whitespace,
read an optional sign and then a maximal digit run; NaN when no digit. -/
def jsParseInt (s : Str) : JNum :=
  match s.dropWhile isJsSpace with
  | '-' :: r => (jsParseNat r).map (fun n => -(n : Int))
  | '+' :: r => (jsParseNat r).map (fun n => (n : Int))
  | r => (jsParseNat r).map (fun n => (n : Int))

/-- The parsed update / service-pack identifier; the source builds the object
literal with fields maj and min. -/
structure Update where
  maj : JNum
  min : JNum
deriving DecidableEq

/-- One parsed tag: a year, an update identifier and a counter.  The up-keyed
file names the middle field up; index.js names it sp. -/
structure Tag where
  year : JNum
  up : Update
  count : JNum
deriving DecidableEq

/-- compareTags from the source (identical in every revision): compare year,
then update major, then update minor, then counter, by subtraction. -/
def compareTags (a b : Tag) : JNum :=
  if !(jeq a.year b.year) then jsub a.year b.year
  else if !(jeq a.up.maj b.up.maj) then jsub a.up.maj b.up.maj
  else if !(jeq a.up.min b.up.min) then jsub a.up.min b.up.min
  else if !(jeq a.count b.count) then jsub a.count b.count
  else some 0

/-- Stable insertion used to model Array.prototype.sort with the compareTags
comparator: a later element moves in front of an earlier one only when the
comparator is strictly negative (engines treat a comparator result that is
neither < 0 nor > 0, NaN included, as a tie, which keeps the original
order). -/
def insertTag (x : Tag) : List Tag → List Tag
  | [] => [x]
  | y :: ys =>
    if jlt (compareTags x y) (some 0) then x :: y :: ys else y :: insertTag x ys

/-- The valid-tag sort: stable and ascending under compareTags. -/
def sortTags (l : List Tag) : List Tag :=
  l.foldl (fun acc x => insertTag x acc) []

/-- Template-literal rendering of a number: integers print in decimal, NaN
prints as the three characters NaN. -/
def jnumStr : JNum → Str
  | some n => (toString n).toList
  | none => "NaN".toList

/-- The tag built from four integers: the data-model Version of the spec,
with no NaN component. -/
def mkTag (y m n c : Int) : Tag :=
  { year := some y, up := { maj := some m, min := some n }, count := some c }

/-- The comparator order exactly as the spec words it: lexicographic on
(year, update.major, update.minor, counter).  Stated over data-model Versions
through jval (on such tags jval is just the stored integer). -/
def specLexLt (a b : Tag) : Prop :=
  jval a.year < jval b.year ∨ (jval a.year = jval b.year ∧
    (jval a.up.maj < jval b.up.maj ∨ (jval a.up.maj = jval b.up.maj ∧
      (jval a.up.min < jval b.up.min ∨ (jval a.up.min = jval b.up.min ∧
        jval a.count < jval b.count)))))

namespace Up

/-- parseUpdate (part_001 lines 24-38): require the literal "up" prefix, read
the major from the first dot-segment after the two prefix characters
(substr(2, length-1) keeps everything after the prefix) and the minor from
the second segment, 0 when there is only one segment.  There is no numeric
validation and no try/catch: parseInt may yield NaN and the NaN lands in the
returned object. -/
def parseUpdate (up : Str) : Option Update :=
  if !(("up".toList).isPrefixOf up) then none
  else
    let parts := jsSplit '.' up
    let maj := jsParseInt ((parts.headD []).drop 2)
    let min := if parts.length = 1 then some 0 else jsParseInt (parts.getD 1 [])
    some { maj := maj, min := min }

/-- parseTag (part_001 lines 40-79).  The body is wrapped in try/catch
returning null.  After the emptiness and the lowercase-v guards, line 52
evaluates tag.uplit(".") — strings have no uplit method, so a TypeError is
raised and the catch returns null: every tag that passes the first two guards
still parses to null. -/
def parseTag (tag : Str) : Option Tag :=
  if tag.isEmpty then none
  else if !(['v'].isPrefixOf tag) then none
  else none

/-- formatTag (part_001 lines 116-119): v year . up maj . min . count, the
minor always printed, also when it is 0. -/
def formatTag (tag : Tag) : Str :=
  let up := ("up".toList) ++ jnumStr tag.up.maj ++ ('.' :: jnumStr tag.up.min)
  ('v' :: jnumStr tag.year) ++ ('.' :: up) ++ ('.' :: jnumStr tag.count)

/-- getRelevantTags (part_001 lines 121-148) on an already-materialised tag
list: an unparseable update short-circuits to the empty list; otherwise every
tag is parsed, the nulls are dropped, the valid tags are sorted and the
configured release line is kept.  parseInt(year) applied to the integral
config year is the year itself, so the line filter compares against the
configured year directly. -/
def getRelevantTags (tagNames : List Str) (year : Int) (update : Str) : List Tag :=
  match parseUpdate update with
  | none => []
  | some up =>
    let tags := tagNames.map parseTag
    let validTags := sortTags (tags.filterMap id)
    validTags.filter (fun tag =>
      jeq tag.year (some year) && jeq tag.up.maj up.maj && jeq tag.up.min up.min)

/-- getLatestTag (part_001 lines 150-169): on an empty line synthesize the
sentinel with counter -1 (update {0,0} when the config update is invalid);
otherwise take the LAST element of the sorted list. -/
def getLatestTag (sortedTags : List Tag) (year : Int) (update : Str) : Tag :=
  match sortedTags with
  | [] =>
    { year := some year
      up := (parseUpdate update).getD { maj := some 0, min := some 0 }
      count := some (-1) }
  | t :: ts => (t :: ts).getLast (by simp)

/-- getNewTag (part_001 lines 171-177): same year and update, counter + 1. -/
def getNewTag (latestTag : Tag) : Str :=
  formatTag
    { year := latestTag.year, up := latestTag.up, count := jadd latestTag.count (some 1) }

/-- The resolution pipeline of action() (part_001 lines 209-211): relevant
tags, then latest tag, then new tag. -/
def resolve (tagNames : List Str) (year : Int) (update : Str) : Str :=
  getNewTag (getLatestTag (getRelevantTags tagNames year update) year update)

end Up

namespace Sp

/-- parseServicePack (index.js lines 23-37), the sp-keyed twin of
Up.parseUpdate, with the same absence of numeric validation. -/
def parseServicePack (sp : Str) : Option Update :=
  if !(("sp".toList).isPrefixOf sp) then none
  else
    let parts := jsSplit '.' sp
    let maj := jsParseInt ((parts.headD []).drop 2)
    let min := if parts.length = 1 then some 0 else jsParseInt (parts.getD 1 [])
    some { maj := maj, min := min }

/-- parseTag (index.js lines 39-78), this time with the real split.  The year
guard year < 2000 || year > 3000 and the counter guard count < 0 are
JavaScript comparisons, false on NaN, so a non-numeric year or counter is NOT
rejected and lands in the returned version.  The source names the middle
field sp. -/
def parseTag (tag : Str) : Option Tag :=
  if tag.isEmpty then none
  else if !(['v'].isPrefixOf tag) then none
  else
    let parts := jsSplit '.' tag
    if parts.length ≠ 3 ∧ parts.length ≠ 4 then none
    else
      let year := jsParseInt ((parts.headD []).drop 1)
      if jlt year (some 2000) || jgt year (some 3000) then none
      else
        match parseServicePack
            (if parts.length = 3 then parts.getD 1 []
             else parts.getD 1 [] ++ ('.' :: parts.getD 2 [])) with
        | none => none
        | some sp =>
          let count := jsParseInt (parts.getLastD [])
          if jlt count (some 0) then none
          else some { year := year, up := sp, count := count }

/-- getRelevantTags (index.js lines 128-152).  Line 148 filters the RAW parse
results, nulls included, and the predicate reads tag.year: one null entry
raises a TypeError that propagates out of the function (modelled as none).
The sorted validTags of lines 143-145 are computed but not what line 148
filters, so the surviving tags also keep the unsorted parse order. -/
def getRelevantTags (tagNames : List Str) (year : Int) (servicePack : Str) :
    Option (List Tag) :=
  match parseServicePack servicePack with
  | none => some []
  | some sp =>
    let tags := tagNames.map parseTag
    let _validTags := sortTags (tags.filterMap id)
    if tags.contains none then none
    else
      some ((tags.filterMap id).filter (fun tag =>
        jeq tag.year (some year) && jeq tag.up.maj sp.maj && jeq tag.up.min sp.min))

/-- getLatestTag (index.js lines 154-169): the sentinel on an empty list,
otherwise sortedTags[0] — the FIRST element of the ascending list, its
minimum. -/
def getLatestTag (sortedTags : List Tag) (year : Int) (servicePack : Str) : Tag :=
  match sortedTags with
  | [] =>
    { year := some year
      up := (parseServicePack servicePack).getD { maj := some 0, min := some 0 }
      count := some (-1) }
  | t :: _ => t

end Sp

theorem up_parseTag_eq_none (t : Str) : Up.parseTag t = none := by
  unfold Up.parseTag
  split_ifs <;> rfl

theorem jsSplit_ne_nil (sep : Char) (s : Str) : jsSplit sep s ≠ [] := by
  induction s with
  | nil => simp [jsSplit]
  | cons c cs ih =>
    by_cases hc : c = sep
    · simp [jsSplit, hc]
    · cases h : jsSplit sep cs with
      | nil => exact absurd h ih
      | cons s ss => simp [jsSplit, hc, h]

theorem jsSplit_of_not_mem (sep : Char) (s : Str) (h : sep ∉ s) :
    jsSplit sep s = [s] := by
  induction s with
  | nil => rfl
  | cons c cs ih =>
    have hc : ¬ c = sep := by
      intro hcc
      exact h (by simp [hcc])
    have hcs : sep ∉ cs := fun hm => h (List.mem_cons_of_mem c hm)
    simp [jsSplit, hc, ih hcs]

theorem jsSplit_append (sep : Char) (xs ys : Str) (h : sep ∉ xs) :
    jsSplit sep (xs ++ sep :: ys) = xs :: jsSplit sep ys := by
  induction xs with
  | nil => simp [jsSplit]
  | cons c cs ih =>
    have hc : ¬ c = sep := by
      intro hcc
      exact h (by simp [hcc])
    have hcs : sep ∉ cs := fun hm => h (List.mem_cons_of_mem c hm)
    simp [jsSplit, hc, ih hcs]

/-- C1: evaluation at a failing input.  With the line tags v2024.up1.0 and
v2024.up1.1 present, the up-keyed resolve returns the counter-0 bootstrap tag
instead of counter max+1 = 2, because its parseTag drops every tag; and the
index.js getLatestTag applied to a sorted two-element line returns the FIRST
element (the minimum), not the last. -/
theorem up_resolve_ignores_existing_line_tags :
    Up.resolve [("v2024.up1.0".toList), ("v2024.up1.1".toList)] 2024 ("up1".toList)
      = ("v2024.up1.0.0".toList)
    ∧ Sp.getLatestTag
        [{ year := some 2024, up := { maj := some 1, min := some 0 }, count := some 0 },
         { year := some 2024, up := { maj := some 1, min := some 0 }, count := some 1 }]
        2024 ("sp1".toList)
      = { year := some 2024, up := { maj := some 1, min := some 0 }, count := some 0 } :=
  ⟨by decide, by decide⟩

/-- C2: whenever the filtered release line is empty, getLatestTag synthesizes
the sentinel (configured year, parsed update key or {0,0} when the update
text is invalid, counter -1), and resolve returns the formatted tag with
counter 0 for the configured year and update. -/
theorem up_resolve_bootstrap_counter_zero
    (tagNames : List Str) (year : Int) (update : Str)
    (h : Up.getRelevantTags tagNames year update = []) :
    Up.getLatestTag (Up.getRelevantTags tagNames year update) year update
      = { year := some year
          up := (Up.parseUpdate update).getD { maj := some 0, min := some 0 }
          count := some (-1) }
    ∧ Up.resolve tagNames year update
      = Up.formatTag
          { year := some year
            up := (Up.parseUpdate update).getD { maj := some 0, min := some 0 }
            count := some 0 } := by
  constructor
  · rw [h]
    rfl
  · unfold Up.resolve Up.getNewTag
    rw [h]
    rfl

theorem up_resolve_bootstrap_counter_zero_witness :
    Up.getRelevantTags [] 2025 ("up3.2".toList) = []
    ∧ (Up.getLatestTag (Up.getRelevantTags [] 2025 ("up3.2".toList)) 2025 ("up3.2".toList)
        = { year := some 2025
            up := (Up.parseUpdate ("up3.2".toList)).getD { maj := some 0, min := some 0 }
            count := some (-1) }
      ∧ Up.resolve [] 2025 ("up3.2".toList)
        = Up.formatTag
            { year := some 2025
              up := (Up.parseUpdate ("up3.2".toList)).getD { maj := some 0, min := some 0 }
              count := some 0 }) :=
  ⟨by decide, up_resolve_bootstrap_counter_zero [] 2025 ("up3.2".toList) (by decide)⟩

/-- C3: the round-trip law fails on the up-keyed file: formatTag renders the
version {2024, {1,0}, 0} as v2024.up1.0.0, and parseTag rejects that very
string (it rejects every string, since line 52 calls the nonexistent method
uplit and the catch turns the TypeError into null). -/
theorem up_parseTag_rejects_formatted_output :
    Up.formatTag { year := some 2024, up := { maj := some 1, min := some 0 }, count := some 0 }
      = ("v2024.up1.0.0".toList)
    ∧ Up.parseTag ("v2024.up1.0.0".toList) = none :=
  ⟨by decide, by decide⟩

/-- C4: the spec example.  On tags [v2024.up1.0, v2024.up1.1, v2024.up2.0,
garbage] with year 2024 and update up1 the code returns v2024.up1.0.0, not
the claimed v2024.up1.2: every tag is dropped by the broken parseTag, and the
formatter always prints the minor. -/
theorem up_resolve_example_counter_not_incremented :
    Up.resolve
        [("v2024.up1.0".toList), ("v2024.up1.1".toList),
         ("v2024.up2.0".toList), ("garbage".toList)]
        2024 ("up1".toList)
      = ("v2024.up1.0.0".toList) := by decide

/-- C6: in index.js getRelevantTags the release-line filter runs over the raw
parse results, nulls included, and its predicate dereferences tag.year, so
one malformed tag raises a TypeError (modelled as none) that aborts the
resolution, while the same list without that entry succeeds. -/
theorem sp_getRelevantTags_throws_on_invalid_entry :
    Sp.getRelevantTags [("v2021.sp1.0".toList), ("not-a-tag".toList)] 2021 ("sp1".toList)
      = none
    ∧ Sp.getRelevantTags [("v2021.sp1.0".toList)] 2021 ("sp1".toList)
      = some [{ year := some 2021, up := { maj := some 1, min := some 0 }, count := some 0 }] :=
  ⟨by decide, by decide⟩

/-- C7: index.js parseTag accepts a non-numeric year and a non-numeric
counter instead of returning invalid: parseInt yields NaN, and the guards
year < 2000 || year > 3000 and count < 0 are false on NaN. -/
theorem sp_parseTag_accepts_nonnumeric_year_and_counter :
    Sp.parseTag ("vteam.sp1.0".toList)
      = some { year := none, up := { maj := some 1, min := some 0 }, count := some 0 }
    ∧ Sp.parseTag ("v2024.sp1.x".toList)
      = some { year := some 2024, up := { maj := some 1, min := some 0 }, count := none } :=
  ⟨by decide, by decide⟩

/-- C8: when the configured update text fails to parse, getRelevantTags
returns the empty list rather than an error, and resolution proceeds on the
bootstrap path, producing the counter-0 tag for the configured year with the
{0,0} update. -/
theorem up_getRelevantTags_empty_on_invalid_update
    (tagNames : List Str) (year : Int) (update : Str)
    (h : Up.parseUpdate update = none) :
    Up.getRelevantTags tagNames year update = []
    ∧ Up.resolve tagNames year update
      = Up.formatTag
          { year := some year, up := { maj := some 0, min := some 0 }, count := some 0 } := by
  have hrel : Up.getRelevantTags tagNames year update = [] := by
    unfold Up.getRelevantTags
    rw [h]
  refine ⟨hrel, ?_⟩
  unfold Up.resolve Up.getNewTag
  rw [hrel]
  unfold Up.getLatestTag
  rw [h]
  rfl

theorem up_getRelevantTags_empty_on_invalid_update_witness :
    Up.parseUpdate ("sp1".toList) = none
    ∧ (Up.getRelevantTags [("v2024.up1.0".toList)] 2024 ("sp1".toList) = []
      ∧ Up.resolve [("v2024.up1.0".toList)] 2024 ("sp1".toList)
        = Up.formatTag
            { year := some 2024, up := { maj := some 0, min := some 0 }, count := some 0 }) :=
  ⟨by decide,
   up_getRelevantTags_empty_on_invalid_update [("v2024.up1.0".toList)] 2024 ("sp1".toList)
     (by decide)⟩

/-- C9: counterexample.  Malformed numeric text is not converted to the
invalid sentinel: parseUpdate returns an identifier with NaN components for
upx and up1.y instead of null. -/
theorem up_parseUpdate_nan_not_invalid :
    Up.parseUpdate ("upx".toList) = some { maj := none, min := some 0 }
    ∧ Up.parseUpdate ("up1.y".toList) = some { maj := some 1, min := none } :=
  ⟨by decide, by decide⟩

/-- C9 amended: parseUpdate performs only total string operations (nothing
can throw) and returns the invalid sentinel exactly when the input lacks the
literal up prefix; with the prefix present it always returns an identifier,
with NaN components when the numeric text is bad. -/
theorem up_parseUpdate_invalid_iff_no_marker (s : Str) :
    Up.parseUpdate s = none ↔ ("up".toList).isPrefixOf s = false := by
  unfold Up.parseUpdate
  cases h : ("up".toList).isPrefixOf s <;> simp [h]

theorem isPrefixOf_append_self (l t : Str) : (l.isPrefixOf (l ++ t)) = true := by
  induction l with
  | nil => simp [List.isPrefixOf]
  | cons c cs ih => simp [List.isPrefixOf, ih]

/-- C10: on an input of shape up a . b . rest — strictly more than two
dot-separated segments, with a and b single segments — parseUpdate is not
invalid, and it returns exactly the identifier of the two-segment input
up a . b: everything after the second segment is silently ignored. -/
theorem up_parseUpdate_ignores_extra_segments (a b rest : Str)
    (ha : '.' ∉ a) (hb : '.' ∉ b) :
    Up.parseUpdate (("up".toList ++ a) ++ ('.' :: (b ++ ('.' :: rest))))
      = Up.parseUpdate (("up".toList ++ a) ++ ('.' :: b))
    ∧ (Up.parseUpdate (("up".toList ++ a) ++ ('.' :: (b ++ ('.' :: rest))))).isSome := by
  have hup : '.' ∉ ("up".toList ++ a) := by
    intro hm
    rcases List.mem_append.mp hm with h1 | h1
    · exact absurd h1 (by decide)
    · exact ha h1
  have hpre : ∀ X : Str, (("up".toList).isPrefixOf (("up".toList ++ a) ++ X)) = true := by
    intro X
    rw [List.append_assoc]
    exact isPrefixOf_append_self _ _
  have hsplit1 : jsSplit '.' (("up".toList ++ a) ++ ('.' :: (b ++ ('.' :: rest))))
      = ("up".toList ++ a) :: b :: jsSplit '.' rest := by
    rw [jsSplit_append '.' _ _ hup, jsSplit_append '.' b rest hb]
  have hsplit2 : jsSplit '.' (("up".toList ++ a) ++ ('.' :: b))
      = [("up".toList ++ a), b] := by
    rw [jsSplit_append '.' _ _ hup, jsSplit_of_not_mem '.' b hb]
  have hdrop : (("up".toList ++ a)).drop 2 = a := rfl
  have hlen : ¬ (("up".toList ++ a) :: b :: jsSplit '.' rest).length = 1 := by
    simp
  constructor
  · unfold Up.parseUpdate
    rw [hpre, hpre, hsplit1, hsplit2]
    simp [hdrop, hlen]
  · unfold Up.parseUpdate
    rw [hpre, hsplit1]
    simp

theorem up_parseUpdate_ignores_extra_segments_witness :
    ('.' ∉ (['3'] : Str)) ∧ ('.' ∉ (['2'] : Str)) ∧
    (Up.parseUpdate (("up".toList ++ ['3']) ++ ('.' :: ((['2'] : Str) ++ ('.' :: (['9'] : Str)))))
        = Up.parseUpdate (("up".toList ++ ['3']) ++ ('.' :: (['2'] : Str)))
      ∧ (Up.parseUpdate
          (("up".toList ++ ['3']) ++ ('.' :: ((['2'] : Str) ++ ('.' :: (['9'] : Str)))))).isSome) :=
  ⟨by decide, by decide,
   up_parseUpdate_ignores_extra_segments ['3'] ['2'] ['9'] (by decide) (by decide)⟩

theorem compareTags_mkTag (y₁ m₁ n₁ c₁ y₂ m₂ n₂ c₂ : Int) :
    compareTags (mkTag y₁ m₁ n₁ c₁) (mkTag y₂ m₂ n₂ c₂)
      = some (if y₁ ≠ y₂ then y₁ - y₂
              else if m₁ ≠ m₂ then m₁ - m₂
              else if n₁ ≠ n₂ then n₁ - n₂
              else if c₁ ≠ c₂ then c₁ - c₂
              else 0) := by
  simp only [compareTags, mkTag, jeq, jsub, Bool.not_eq_eq_eq_not, Bool.not_true,
    beq_eq_false_iff_ne, ne_eq]
  split_ifs <;> simp_all

set_option maxHeartbeats 2000000 in
/-- C5: over the data-model Versions (all four fields integers), compareTags
is total and strict: it returns 0 exactly when all four fields agree, its
result is the exact negation of the swapped comparison, the induced strict
order is transitive and trichotomous, and it coincides with the
lexicographic order on (year, update.major, update.minor, counter). -/
theorem compareTags_strict_total_order
    (y₁ m₁ n₁ c₁ y₂ m₂ n₂ c₂ y₃ m₃ n₃ c₃ : Int) :
    (compareTags (mkTag y₁ m₁ n₁ c₁) (mkTag y₂ m₂ n₂ c₂)).isSome
    ∧ (compareTags (mkTag y₁ m₁ n₁ c₁) (mkTag y₂ m₂ n₂ c₂) = some 0
        ↔ (y₁ = y₂ ∧ m₁ = m₂ ∧ n₁ = n₂ ∧ c₁ = c₂))
    ∧ jval (compareTags (mkTag y₁ m₁ n₁ c₁) (mkTag y₂ m₂ n₂ c₂))
        = -jval (compareTags (mkTag y₂ m₂ n₂ c₂) (mkTag y₁ m₁ n₁ c₁))
    ∧ (jval (compareTags (mkTag y₁ m₁ n₁ c₁) (mkTag y₂ m₂ n₂ c₂)) < 0 →
        jval (compareTags (mkTag y₂ m₂ n₂ c₂) (mkTag y₃ m₃ n₃ c₃)) < 0 →
        jval (compareTags (mkTag y₁ m₁ n₁ c₁) (mkTag y₃ m₃ n₃ c₃)) < 0)
    ∧ (jval (compareTags (mkTag y₁ m₁ n₁ c₁) (mkTag y₂ m₂ n₂ c₂)) < 0
        ∨ compareTags (mkTag y₁ m₁ n₁ c₁) (mkTag y₂ m₂ n₂ c₂) = some 0
        ∨ jval (compareTags (mkTag y₂ m₂ n₂ c₂) (mkTag y₁ m₁ n₁ c₁)) < 0)
    ∧ (jval (compareTags (mkTag y₁ m₁ n₁ c₁) (mkTag y₂ m₂ n₂ c₂)) < 0
        ↔ specLexLt (mkTag y₁ m₁ n₁ c₁) (mkTag y₂ m₂ n₂ c₂)) := by
  simp only [compareTags_mkTag]
  simp only [specLexLt, mkTag, jval, Option.getD_some, Option.isSome_some,
    Option.some.injEq, ne_eq]
  refine ⟨trivial, ?_, ?_, ?_, ?_, ?_⟩
  · split_ifs <;> omega
  · split_ifs <;> omega
  · split_ifs <;> omega
  · split_ifs <;> omega
  · split_ifs <;> omega
